import Mathlib

/-!
Verification development for the persistence module `src/data-manager.js`
(the `DataManager` object of the Perfect Wood application).

The module is a thin wrapper over a key-value store.  In the browser
environment (the path implemented in the repository itself; the Electron
path merely delegates to an out-of-scope host API) every operation reads
and writes string values under fixed keys of `localStorage`.  We embed
that browser path shallowly:

* `JVal` models JSON-representable JavaScript values (the values that
  `JSON.parse` can produce and `JSON.stringify` can consume here).
* `JStr` models the strings that matter to this module: a string is
  either the serialization of some `JVal` (constructor `JStr.ser`,
  standing for `JSON.stringify v`, which is never empty and parses back
  to `v`) or a string on which `JSON.parse` fails (`JStr.junk`).
  `JSON.parse` / `JSON.stringify` are platform built-ins, not code of
  this repository; they are modelled by this abstraction, faithful to
  their contract: `jsonParse (jsonStringify v) = some v`, and a string
  that fails to parse yields `none`.
* `Store` models `localStorage`: a map from keys to optionally present
  string values, with `getItem` = application, `setItem` = `Store.set`,
  `removeItem` = `Store.remove`.

Each `DataManager` method becomes a pure function on `Store`; a method
that both returns a value and writes returns a pair of the JS return
value and the updated store.
-/

/-- Values of the JSON data model: exactly what `JSON.parse` can return
(`null`, booleans, numbers, strings, arrays, objects).  Numbers are
modelled as integers; none of the module's logic inspects numeric
values beyond truthiness, for which integers suffice. -/
inductive JVal where
  | null
  | bool (b : Bool)
  | num (n : Int)
  | str (s : String)
  | arr (elems : List JVal)
  | obj (fields : List (String × JVal))

/-- JavaScript truthiness of a value, as used by `if (x)`, `x ? a : b`,
`!x` and `x || y` in the source: `null`, `false`, `0` and the empty
string are falsy; arrays and objects are always truthy. -/
def JVal.truthy : JVal → Bool
  | .null => false
  | .bool b => b
  | .num n => n != 0
  | .str s => !s.isEmpty
  | .arr _ => true
  | .obj _ => true

/-- Member access `v.name` on a parsed value: defined on objects (first
binding wins; JavaScript objects have unique keys, so duplicate-free
field lists represent them faithfully), `none` (JavaScript `undefined`)
on everything else and on a missing field. -/
def JVal.getField (v : JVal) (name : String) : Option JVal :=
  match v with
  | .obj fields => fields.lookup name
  | _ => none

/-- Truthiness of a possibly-`undefined` value: `undefined` is falsy. -/
def optTruthy : Option JVal → Bool
  | some v => v.truthy
  | none => false

/-- The JavaScript `x || d` idiom applied to a possibly-`undefined`
value: the value itself when truthy, otherwise the default. -/
def jsOr (x : Option JVal) (d : JVal) : JVal :=
  match x with
  | some v => if v.truthy then v else d
  | none => d

/-- Strings as this module observes them: `ser v` stands for the string
`JSON.stringify v` (non-empty, parses back to `v`); `junk s` stands for
a string `s` on which `JSON.parse` throws.  `JSON.parse`/`stringify`
are platform built-ins (not code of this repository) and are modelled
by this abstraction. -/
inductive JStr where
  | ser (v : JVal)
  | junk (s : String)

/-- Truthiness of a string: non-empty strings are truthy.
`JSON.stringify` of a JSON value is never the empty string, so a
serialized value is always truthy. -/
def JStr.truthy : JStr → Bool
  | .ser _ => true
  | .junk s => !s.isEmpty

/-- Model of `JSON.parse` wrapped in the source's try/catch discipline:
`some v` when the string parses to `v`, `none` when `JSON.parse`
throws. -/
def jsonParse : JStr → Option JVal
  | .ser v => some v
  | .junk _ => none

/-- Model of `JSON.stringify` on JSON-representable values. -/
def jsonStringify (v : JVal) : JStr := .ser v

/-- Model of `localStorage`: `getItem key` is application, `none` is
JavaScript `null` (key absent). -/
def Store : Type := String → Option JStr

/-- Model of `localStorage.setItem`. -/
def Store.set (st : Store) (key : String) (val : JStr) : Store :=
  fun q => if q = key then some val else st q

/-- Model of `localStorage.removeItem`. -/
def Store.remove (st : Store) (key : String) : Store :=
  fun q => if q = key then none else st q

/-- A store with no keys present. -/
def emptyStore : Store := fun _ => none

/-- Fixed key of the main dataset (`data/perfectWoodData.json`). -/
def dataKey : String := "data/perfectWoodData.json"

/-- Fixed key of the customer transaction log. -/
def custKey : String := "data/customerTransactions.json"

/-- Fixed key of the supplier transaction log. -/
def suppKey : String := "data/supplierTransactions.json"

/-- The default data structure `DataManager.defaultData`
(src/data-manager.js lines 11-17): empty products, customers, sellers
and two empty transaction logs, as a value. -/
def defaultData : JVal :=
  .obj [("products", .arr []), ("customers", .arr []), ("sellers", .arr []),
        ("customerTransactions", .arr []), ("supplierTransactions", .arr [])]

/-- Embedding of `DataManager.loadData` (lines 64-84), browser path:
read the fixed key; if a truthy string is present, return its parse;
on parse failure the thrown error is caught and a copy of
`defaultData` is returned; if the key is absent (or the stored string
is empty, hence falsy) return a copy of `defaultData`.  The function is
total: the catch-all means `loadData` never throws. -/
def loadData (st : Store) : JVal :=
  match st dataKey with
  | some s =>
    if s.truthy then
      match jsonParse s with
      | some v => v
      | none => defaultData
    else defaultData
  | none => defaultData

/-- Embedding of `DataManager.saveData` (lines 89-104), browser path:
serialize and write to the fixed key; returns `true` (the browser
branch has no failing step for a JSON-representable value). -/
def saveData (st : Store) (data : JVal) : Bool × Store :=
  (true, st.set dataKey (jsonStringify data))

/-- Embedding of `DataManager.loadCustomerTransactions` (lines
109-124), browser path: `transactions ? JSON.parse(transactions) : []`
with the catch returning `[]`. -/
def loadCustomerTransactions (st : Store) : JVal :=
  match st custKey with
  | some s =>
    if s.truthy then
      match jsonParse s with
      | some v => v
      | none => .arr []
    else .arr []
  | none => .arr []

/-- Embedding of `DataManager.saveCustomerTransactions` (lines
129-144), browser path. -/
def saveCustomerTransactions (st : Store) (transactions : JVal) : Bool × Store :=
  (true, st.set custKey (jsonStringify transactions))

/-- Embedding of `DataManager.loadSupplierTransactions` (lines
149-164), browser path. -/
def loadSupplierTransactions (st : Store) : JVal :=
  match st suppKey with
  | some s =>
    if s.truthy then
      match jsonParse s with
      | some v => v
      | none => .arr []
    else .arr []
  | none => .arr []

/-- Embedding of `DataManager.saveSupplierTransactions` (lines
169-184), browser path. -/
def saveSupplierTransactions (st : Store) (transactions : JVal) : Bool × Store :=
  (true, st.set suppKey (jsonStringify transactions))

/-- Embedding of `DataManager.clearAllData` (lines 263-280), browser
path: remove the three fixed keys, return `true`. -/
def clearAllData (st : Store) : Bool × Store :=
  (true, ((st.remove dataKey).remove custKey).remove suppKey)

/-- Embedding of `DataManager.migrateFromLocalStorage` (lines 42-59):
read the three legacy keys, then copy each truthy legacy value to its
corresponding new fixed key, leaving the legacy keys themselves
untouched. -/
def migrateFromLocalStorage (st : Store) : Store :=
  let existingData := st "perfectWoodData"
  let existingCust := st "customerTransactions"
  let existingSupp := st "supplierTransactions"
  let st1 := match existingData with
    | some s => if s.truthy then st.set dataKey s else st
    | none => st
  let st2 := match existingCust with
    | some s => if s.truthy then st1.set custKey s else st1
    | none => st1
  match existingSupp with
  | some s => if s.truthy then st2.set suppKey s else st2
  | none => st2

/-- Embedding of `DataManager.initialize` (lines 22-37), browser path
(source name `initialize`): in the browser environment it runs
`migrateFromLocalStorage`; the try/catch makes it total (in the
Electron environment it returns immediately without touching the
store). -/
def initializeData (st : Store) : Store :=
  migrateFromLocalStorage st

/-- Errors with which `DataManager.importData` can reject: a
`JSON.parse` failure on the file content, the validation error thrown
at line 231 (message `Invalid data structure`), and the read error of
line 255 (message `Error reading file`). -/
inductive ImportErr where
  | parseError
  | validationError (msg : String)
  | readError (msg : String)
deriving DecidableEq, Repr

/-- Embedding of `DataManager.importData` (lines 222-258), browser
path, on a file whose content was read successfully as the string
`content` (a read failure rejects with
`ImportErr.readError "Error reading file"` before this logic runs and
changes nothing).  Parse the content; reject on parse failure; reject
with the validation error when any of `products`, `customers`,
`sellers` is falsy (in particular, absent); otherwise save the object
with exactly those three fields (each defaulted through `|| []`), then
save each transaction log only when its field is truthy; resolve
`true`. -/
def importData (st : Store) (content : JStr) : Except ImportErr Bool × Store :=
  match jsonParse content with
  | none => (.error .parseError, st)
  | some v =>
    if !optTruthy (v.getField "products") || !optTruthy (v.getField "customers")
        || !optTruthy (v.getField "sellers") then
      (.error (.validationError "Invalid data structure"), st)
    else
      let st1 := (saveData st (.obj
        [("products", jsOr (v.getField "products") (.arr [])),
         ("customers", jsOr (v.getField "customers") (.arr [])),
         ("sellers", jsOr (v.getField "sellers") (.arr []))])).2
      let st2 := if optTruthy (v.getField "customerTransactions") then
          (saveCustomerTransactions st1 ((v.getField "customerTransactions").getD .null)).2
        else st1
      let st3 := if optTruthy (v.getField "supplierTransactions") then
          (saveSupplierTransactions st2 ((v.getField "supplierTransactions").getD .null)).2
        else st2
      (.ok true, st3)

/-- Definition following the spec's words (section 3 and claim C4),
for comparison with the code: a structurally valid Dataset value is a
record whose `products`, `customers` and `sellers` fields are
sequences. -/
def specDatasetShaped (v : JVal) : Bool :=
  match v.getField "products", v.getField "customers", v.getField "sellers" with
  | some (.arr _), some (.arr _), some (.arr _) => true
  | _, _, _ => false

/-- Definition following the spec's words: the declared result type of
the transaction loaders is a (possibly empty) sequence. -/
def specIsSeq : JVal → Bool
  | .arr _ => true
  | _ => false

/-- Truthiness of a possibly-absent stored string. -/
def strOptTruthy : Option JStr → Bool
  | some s => s.truthy
  | none => false

/-- Pointwise characterization of `migrateFromLocalStorage`: each new
fixed key receives its legacy value when that legacy value is truthy,
and every other key (the legacy keys included) is unchanged. -/
theorem migrate_apply (st : Store) (k : String) :
    migrateFromLocalStorage st k =
      (if k = suppKey ∧ strOptTruthy (st "supplierTransactions") = true then
        st "supplierTransactions"
       else if k = custKey ∧ strOptTruthy (st "customerTransactions") = true then
        st "customerTransactions"
       else if k = dataKey ∧ strOptTruthy (st "perfectWoodData") = true then
        st "perfectWoodData"
       else st k) := by
  unfold migrateFromLocalStorage
  rcases hd : st "perfectWoodData" with _ | s1 <;>
    rcases hc : st "customerTransactions" with _ | s2 <;>
      rcases hs : st "supplierTransactions" with _ | s3 <;>
        simp only [strOptTruthy] <;>
          split_ifs <;>
            simp_all [Store.set, dataKey, custKey, suppKey]

/-- Running the migration twice produces the same store as running it
once: the migration never changes the legacy keys it reads, so the
second run copies the same values onto the same new keys. -/
theorem migrate_idem (st : Store) (k : String) :
    migrateFromLocalStorage (migrateFromLocalStorage st) k =
      migrateFromLocalStorage st k := by
  have l1 : migrateFromLocalStorage st "perfectWoodData" = st "perfectWoodData" := by
    simp [migrate_apply, dataKey, custKey, suppKey]
  have l2 : migrateFromLocalStorage st "customerTransactions" =
      st "customerTransactions" := by
    simp [migrate_apply, dataKey, custKey, suppKey]
  have l3 : migrateFromLocalStorage st "supplierTransactions" =
      st "supplierTransactions" := by
    simp [migrate_apply, dataKey, custKey, suppKey]
  rw [migrate_apply (migrateFromLocalStorage st) k, l1, l2, l3, migrate_apply st k]
  split_ifs <;> rfl

/-- C1: for any valid Dataset `D` (any JSON-representable value, in
particular any record of products/customers/sellers sequences),
`saveData D` followed by `loadData` against the resulting backend state
yields a value deep-equal to `D`. -/
theorem saveData_loadData_roundtrip (st : Store) (D : JVal) :
    loadData (saveData st D).2 = D := by
  simp [loadData, saveData, Store.set, jsonStringify, jsonParse, JStr.truthy]

/-- C5: when the string stored at the fixed dataset key fails to parse
(`JSON.parse` throws), `loadData` returns the Default Dataset; being a
total function, it does not throw. -/
theorem loadData_corrupt_returns_default (st : Store) (s : JStr)
    (h1 : st dataKey = some s) (h2 : jsonParse s = none) :
    loadData st = defaultData := by
  unfold loadData
  rw [h1]
  cases hs : s.truthy <;> simp [h2]

/-- Witness for C5 at a concrete corrupt store: the key holds a string
on which parsing fails, and `loadData` returns the default. -/
theorem loadData_corrupt_returns_default_witness :
    (emptyStore.set dataKey (JStr.junk "not valid")) dataKey = some (JStr.junk "not valid") ∧
    jsonParse (JStr.junk "not valid") = none ∧
    loadData (emptyStore.set dataKey (JStr.junk "not valid")) = defaultData :=
  ⟨rfl, rfl, loadData_corrupt_returns_default _ _ rfl rfl⟩

/-- C7: for any transaction sequences, saving the customer transaction
log and loading it back yields the same sequence, and likewise for the
supplier transaction log. -/
theorem saveTransactions_loadTransactions_roundtrip (st1 st2 : Store)
    (T1 T2 : List JVal) :
    loadCustomerTransactions (saveCustomerTransactions st1 (.arr T1)).2 = .arr T1 ∧
    loadSupplierTransactions (saveSupplierTransactions st2 (.arr T2)).2 = .arr T2 := by
  constructor <;>
    simp [loadCustomerTransactions, saveCustomerTransactions,
      loadSupplierTransactions, saveSupplierTransactions,
      Store.set, jsonStringify, jsonParse, JStr.truthy]

/-- Unfolding lemma: truthiness of a present value is the value's own
truthiness. -/
theorem optTruthy_some (v : JVal) : optTruthy (some v) = v.truthy := rfl

/-- Unfolding lemma: an absent (`undefined`) value is falsy. -/
theorem optTruthy_none : optTruthy none = false := rfl

/-- C2: for every import object in which at least one of the three
required fields `products`, `customers`, `sellers` is absent,
`importData` rejects with the validation error whose message is
`Invalid data structure` and performs no writes: the resulting store is
the unchanged input store. -/
theorem importData_missing_field_rejects (st : Store) (v : JVal)
    (h : v.getField "products" = none ∨ v.getField "customers" = none ∨
         v.getField "sellers" = none) :
    importData st (jsonStringify v) =
      (.error (.validationError "Invalid data structure"), st) := by
  unfold importData
  rcases h with h | h | h <;> simp [jsonStringify, jsonParse, optTruthy, h]

/-- Witness for C2 at a concrete import object missing `sellers`
against the empty store. -/
theorem importData_missing_field_rejects_witness :
    (JVal.obj [("products", .arr []), ("customers", .arr [])]).getField "sellers" = none ∧
    importData emptyStore
        (jsonStringify (JVal.obj [("products", .arr []), ("customers", .arr [])])) =
      (.error (.validationError "Invalid data structure"), emptyStore) :=
  ⟨rfl, importData_missing_field_rejects emptyStore _ (Or.inr (Or.inr rfl))⟩

/-- C6: for every import object containing the three required fields as
sequences but neither `customerTransactions` nor
`supplierTransactions`, `importData` resolves `true`, saves under the
dataset key exactly the record of those three fields, and leaves the
customer and supplier transaction keys holding the same values as
before. -/
theorem importData_core_only_frame (st : Store) (v : JVal) (ps cs ss : List JVal)
    (h1 : v.getField "products" = some (.arr ps))
    (h2 : v.getField "customers" = some (.arr cs))
    (h3 : v.getField "sellers" = some (.arr ss))
    (h4 : v.getField "customerTransactions" = none)
    (h5 : v.getField "supplierTransactions" = none) :
    importData st (jsonStringify v) =
      (.ok true, st.set dataKey (jsonStringify (.obj
        [("products", .arr ps), ("customers", .arr cs), ("sellers", .arr ss)]))) ∧
    (importData st (jsonStringify v)).2 custKey = st custKey ∧
    (importData st (jsonStringify v)).2 suppKey = st suppKey := by
  have hmain : importData st (jsonStringify v) =
      (.ok true, st.set dataKey (jsonStringify (.obj
        [("products", .arr ps), ("customers", .arr cs), ("sellers", .arr ss)]))) := by
    unfold importData
    simp [jsonStringify, jsonParse, h1, h2, h3, h4, h5, optTruthy, JVal.truthy,
      jsOr, saveData]
  refine ⟨hmain, ?_, ?_⟩ <;> rw [hmain] <;>
    simp [Store.set, dataKey, custKey, suppKey]

/-- Witness for C6 at a concrete import object with the three required
fields only, against the empty store. -/
theorem importData_core_only_frame_witness :
    (JVal.obj [("products", .arr [.num 1]), ("customers", .arr []),
        ("sellers", .arr [])]).getField "products" = some (.arr [.num 1]) ∧
    (JVal.obj [("products", .arr [.num 1]), ("customers", .arr []),
        ("sellers", .arr [])]).getField "customerTransactions" = none ∧
    (importData emptyStore (jsonStringify (JVal.obj [("products", .arr [.num 1]),
        ("customers", .arr []), ("sellers", .arr [])])) =
      (.ok true, emptyStore.set dataKey (jsonStringify (.obj
        [("products", .arr [.num 1]), ("customers", .arr []),
         ("sellers", .arr [])]))) ∧
     (importData emptyStore (jsonStringify (JVal.obj [("products", .arr [.num 1]),
        ("customers", .arr []), ("sellers", .arr [])]))).2 custKey =
       emptyStore custKey ∧
     (importData emptyStore (jsonStringify (JVal.obj [("products", .arr [.num 1]),
        ("customers", .arr []), ("sellers", .arr [])]))).2 suppKey =
       emptyStore suppKey) :=
  ⟨rfl, rfl,
   importData_core_only_frame emptyStore _ [.num 1] [] [] rfl rfl rfl rfl rfl⟩

/-- C10: in `importData`, a required field that is present but falsy is
treated like an absent field (the import rejects with the
`Invalid data structure` validation error and no write happens), and
whenever validation passes, all three required fields are truthy and
the saved dataset consists of exactly the three imported field values
(the falsy-to-empty-sequence fallback never changes them). -/
theorem importData_falsy_required_field (st : Store) (v : JVal) :
    (∀ p, ((v.getField "products" = some p ∧ p.truthy = false) ∨
           (v.getField "customers" = some p ∧ p.truthy = false) ∨
           (v.getField "sellers" = some p ∧ p.truthy = false)) →
      importData st (jsonStringify v) =
        (.error (.validationError "Invalid data structure"), st)) ∧
    (∀ p c s, v.getField "products" = some p → p.truthy = true →
       v.getField "customers" = some c → c.truthy = true →
       v.getField "sellers" = some s → s.truthy = true →
       (importData st (jsonStringify v)).1 = .ok true ∧
       (importData st (jsonStringify v)).2 dataKey =
         some (jsonStringify (.obj
           [("products", p), ("customers", c), ("sellers", s)]))) := by
  constructor
  · rintro p (⟨h, hp⟩ | ⟨h, hp⟩ | ⟨h, hp⟩) <;>
      · unfold importData
        simp [jsonStringify, jsonParse, optTruthy, h, hp]
  · intro p c s h1 t1 h2 t2 h3 t3
    unfold importData
    cases hct : optTruthy (v.getField "customerTransactions") <;>
      cases hst : optTruthy (v.getField "supplierTransactions") <;>
        simp [jsonStringify, jsonParse, optTruthy_some, h1, h2, h3, t1, t2, t3,
          hct, hst, jsOr, saveData, saveCustomerTransactions,
          saveSupplierTransactions, Store.set, dataKey, custKey, suppKey]

/-- Witness for C10: a present-but-falsy `products` (the number 0)
rejects exactly like an absent field, and a fully truthy import saves
exactly the three imported values. -/
theorem importData_falsy_required_field_witness :
    importData emptyStore (jsonStringify (JVal.obj [("products", .num 0),
        ("customers", .arr []), ("sellers", .arr [])])) =
      (.error (.validationError "Invalid data structure"), emptyStore) ∧
    (importData emptyStore (jsonStringify (JVal.obj [("products", .arr [.num 2]),
        ("customers", .arr []), ("sellers", .arr [])]))).1 = .ok true ∧
    (importData emptyStore (jsonStringify (JVal.obj [("products", .arr [.num 2]),
        ("customers", .arr []), ("sellers", .arr [])]))).2 dataKey =
      some (jsonStringify (.obj [("products", .arr [.num 2]),
        ("customers", .arr []), ("sellers", .arr [])])) :=
  ⟨(importData_falsy_required_field emptyStore _).1 (.num 0) (Or.inl ⟨rfl, rfl⟩),
   (importData_falsy_required_field emptyStore _).2 (.arr [.num 2]) (.arr []) (.arr [])
     rfl rfl rfl rfl rfl rfl⟩

/-- C8: from any backend state, `clearAllData` succeeds (returns
`true`), and afterwards `loadData` returns the Default Dataset and
`loadCustomerTransactions` returns the empty sequence. -/
theorem clearAllData_resets (st : Store) :
    (clearAllData st).1 = true ∧
    loadData (clearAllData st).2 = defaultData ∧
    loadCustomerTransactions (clearAllData st).2 = .arr [] := by
  refine ⟨rfl, ?_, ?_⟩ <;>
    simp [clearAllData, Store.remove, loadData, loadCustomerTransactions,
      dataKey, custKey, suppKey]

/-- C4 is false on the code: the loaders perform no shape validation.
At the backend state storing the JSON number `5` under the dataset key,
`loadData` returns the number `5`, which is not a record with the three
sequence fields; likewise the customer transaction loader returns a
stored number as-is instead of a sequence. -/
theorem load_shape_unvalidated_counterexample :
    loadData (emptyStore.set dataKey (jsonStringify (.num 5))) = .num 5 ∧
    specDatasetShaped (.num 5) = false ∧
    loadCustomerTransactions (emptyStore.set custKey (jsonStringify (.num 7))) = .num 7 ∧
    specIsSeq (.num 7) = false :=
  ⟨rfl, rfl, rfl, rfl⟩

/-- C4 amended: every load operation is total (never fails outward)
and returns either its safe default (the Default Dataset for
`loadData`, the empty sequence for the transaction loaders) or exactly
the value parsed from the stored string — with no validation of that
value's shape. -/
theorem load_never_fails_outward (st : Store) :
    (loadData st = defaultData ∨
      ∃ s, st dataKey = some s ∧ jsonParse s = some (loadData st)) ∧
    (loadCustomerTransactions st = .arr [] ∨
      ∃ s, st custKey = some s ∧ jsonParse s = some (loadCustomerTransactions st)) ∧
    (loadSupplierTransactions st = .arr [] ∨
      ∃ s, st suppKey = some s ∧ jsonParse s = some (loadSupplierTransactions st)) := by
  refine ⟨?_, ?_, ?_⟩
  · rcases h : st dataKey with _ | s
    · exact Or.inl (by simp [loadData, h])
    · cases ht : s.truthy
      · exact Or.inl (by simp [loadData, h, ht])
      · rcases hp : jsonParse s with _ | v
        · exact Or.inl (by simp [loadData, h, ht, hp])
        · exact Or.inr ⟨s, rfl, by simp [loadData, h, ht, hp]⟩
  · rcases h : st custKey with _ | s
    · exact Or.inl (by simp [loadCustomerTransactions, h])
    · cases ht : s.truthy
      · exact Or.inl (by simp [loadCustomerTransactions, h, ht])
      · rcases hp : jsonParse s with _ | v
        · exact Or.inl (by simp [loadCustomerTransactions, h, ht, hp])
        · exact Or.inr ⟨s, rfl, by simp [loadCustomerTransactions, h, ht, hp]⟩
  · rcases h : st suppKey with _ | s
    · exact Or.inl (by simp [loadSupplierTransactions, h])
    · cases ht : s.truthy
      · exact Or.inl (by simp [loadSupplierTransactions, h, ht])
      · rcases hp : jsonParse s with _ | v
        · exact Or.inl (by simp [loadSupplierTransactions, h, ht, hp])
        · exact Or.inr ⟨s, rfl, by simp [loadSupplierTransactions, h, ht, hp]⟩

/-- C9: legacy migration in the browser environment: with the legacy
key `perfectWoodData` holding a stored value and the new fixed key
absent, initialization copies the legacy value to the new key, leaves
the legacy key unchanged, a subsequent `loadData` returns the legacy
value, and running initialization twice raises no error (it is a total
function) and produces exactly the backend state of running it once. -/
theorem initializeData_migration (st : Store) (v : JVal)
    (h1 : st "perfectWoodData" = some (jsonStringify v))
    (_h2 : st dataKey = none) :
    initializeData st dataKey = some (jsonStringify v) ∧
    initializeData st "perfectWoodData" = some (jsonStringify v) ∧
    loadData (initializeData st) = v ∧
    ∀ k, initializeData (initializeData st) k = initializeData st k := by
  have hnew : initializeData st dataKey = some (jsonStringify v) := by
    simp [initializeData, migrate_apply, h1, strOptTruthy, jsonStringify,
      JStr.truthy, dataKey, custKey, suppKey]
  refine ⟨hnew, ?_, ?_, ?_⟩
  · simpa [initializeData, migrate_apply, dataKey, custKey, suppKey] using h1
  · simp [loadData, hnew, jsonStringify, jsonParse, JStr.truthy]
  · intro k
    exact migrate_idem st k

/-- Witness for C9 at a concrete one-key legacy store. -/
theorem initializeData_migration_witness :
    (emptyStore.set "perfectWoodData" (jsonStringify (.num 3))) "perfectWoodData" =
      some (jsonStringify (.num 3)) ∧
    (emptyStore.set "perfectWoodData" (jsonStringify (.num 3))) dataKey = none ∧
    loadData (initializeData
      (emptyStore.set "perfectWoodData" (jsonStringify (.num 3)))) = .num 3 :=
  ⟨rfl, rfl, (initializeData_migration _ _ rfl rfl).2.2.1⟩

/-!
Heap-level refinement for the default-return branch of `loadData`.

The value-level model above is sound for everything that round-trips
through `localStorage` (strings have no aliasing), but line 79 of the
source returns `{ ...this.defaultData }`: a shallow copy of the
module-level default object.  The spread copies the field list of the
object, so the five inner arrays of the copy are the very arrays of
`DataManager.defaultData`.  To settle the freshness part of the
default-dataset claim we model JavaScript objects and arrays with
identity: primitives are immediate, arrays and objects live in a heap
and are passed by reference.
-/

/-- Heap-level JavaScript values: primitives are immediate, arrays and
objects are references into the heap. -/
inductive HVal where
  | null
  | bool (b : Bool)
  | num (n : Int)
  | str (s : String)
  | arrRef (a : Nat)
  | objRef (a : Nat)
deriving DecidableEq

/-- A JavaScript heap: array cells, object cells (field lists) and a
fresh-address counter. -/
structure Heap where
  arrs : Nat → Option (List HVal)
  objs : Nat → Option (List (String × HVal))
  nextAddr : Nat

/-- The empty heap. -/
def Heap.empty : Heap := ⟨fun _ => none, fun _ => none, 0⟩

/-- Allocation of a new array cell. -/
def Heap.allocArr (h : Heap) (xs : List HVal) : HVal × Heap :=
  (HVal.arrRef h.nextAddr,
   { h with arrs := fun a => if a = h.nextAddr then some xs else h.arrs a,
            nextAddr := h.nextAddr + 1 })

/-- Allocation of a new object cell. -/
def Heap.allocObj (h : Heap) (fs : List (String × HVal)) : HVal × Heap :=
  (HVal.objRef h.nextAddr,
   { h with objs := fun a => if a = h.nextAddr then some fs else h.objs a,
            nextAddr := h.nextAddr + 1 })

/-- Evaluation of the object literal `DataManager.defaultData` at
module load (src/data-manager.js lines 11-17): five distinct empty
arrays are allocated, then the object holding references to them. -/
def defaultDataAlloc : HVal × Heap :=
  let pr := Heap.empty.allocArr []
  let cu := pr.2.allocArr []
  let se := cu.2.allocArr []
  let ct := se.2.allocArr []
  let su := ct.2.allocArr []
  su.2.allocObj [("products", pr.1), ("customers", cu.1), ("sellers", se.1),
                 ("customerTransactions", ct.1), ("supplierTransactions", su.1)]

/-- The heap after the module-level default object is allocated. -/
def dmHeap0 : Heap := defaultDataAlloc.2

/-- The reference held by `DataManager.defaultData`. -/
def dmDefault : HVal := defaultDataAlloc.1

/-- Semantics of the spread expression `{ ...obj }` (lines 79 and 82):
allocate a new object whose field list is copied shallowly, so every
field value — array references included — is shared with the
original. -/
def Heap.spread (h : Heap) (v : HVal) : HVal × Heap :=
  match v with
  | HVal.objRef a =>
    match h.objs a with
    | some fs => h.allocObj fs
    | none => (HVal.null, h)
  | x => (x, h)

/-- Heap-level embedding of the branch of `DataManager.loadData` taken
on an empty backend (line 79): return `{ ...this.defaultData }`. -/
def loadDataOnEmpty (h : Heap) (defaultObj : HVal) : HVal × Heap :=
  h.spread defaultObj

/-- Reading a field of a heap object (`obj.name`). -/
def Heap.getFieldH (h : Heap) (v : HVal) (name : String) : Option HVal :=
  match v with
  | HVal.objRef a => (h.objs a).bind (fun fs => fs.lookup name)
  | _ => none

/-- Mutation `arr.push(x)` on the array referenced by `v`. -/
def Heap.pushArr (h : Heap) (v : HVal) (x : HVal) : Heap :=
  match v with
  | HVal.arrRef a =>
    { h with arrs := fun q => if q = a then (h.arrs a).map (fun xs => xs ++ [x])
                              else h.arrs q }
  | _ => h

/-- Replacing (or adding) a binding in a field list. -/
def setFieldList : List (String × HVal) → String → HVal → List (String × HVal)
  | [], name, x => [(name, x)]
  | (n, v) :: fs, name, x =>
    if n = name then (n, x) :: fs else (n, v) :: setFieldList fs name x

/-- Mutation `obj.name = x` on the object referenced by `v`. -/
def Heap.setField (h : Heap) (v : HVal) (name : String) (x : HVal) : Heap :=
  match v with
  | HVal.objRef a =>
    { h with objs := fun q => if q = a then (h.objs a).map
                                (fun fs => setFieldList fs name x)
                              else h.objs q }
  | _ => h

/-- Deep read of a heap value as a JSON value; the fuel bounds
reference-chasing depth (JavaScript heaps may be cyclic). Two heap
values are deep-equal when they read back as the same JSON value. -/
def readHVal (h : Heap) : Nat → HVal → Option JVal
  | _, HVal.null => some .null
  | _, HVal.bool b => some (.bool b)
  | _, HVal.num n => some (.num n)
  | _, HVal.str s => some (.str s)
  | 0, HVal.arrRef _ => none
  | 0, HVal.objRef _ => none
  | fuel + 1, HVal.arrRef a =>
    (h.arrs a).bind fun xs => (xs.mapM (readHVal h fuel)).map JVal.arr
  | fuel + 1, HVal.objRef a =>
    (h.objs a).bind fun fs =>
      (fs.mapM (fun p => (readHVal h fuel p.2).map (fun w => (p.1, w)))).map JVal.obj

/-- First call of `loadData` on an empty backend, at the heap level. -/
def load1 : HVal × Heap := loadDataOnEmpty dmHeap0 dmDefault

/-- The caller then mutates an inner array of the returned value:
`result.products.push(1)`. -/
def heapAfterPush : Heap :=
  match load1.2.getFieldH load1.1 "products" with
  | some r => load1.2.pushArr r (HVal.num 1)
  | none => load1.2

/-- Second call of `loadData` on a still-empty backend, after the
mutation. -/
def load2 : HVal × Heap := loadDataOnEmpty heapAfterPush dmDefault

/-- The default dataset as it reads back after the push: its
`products` array now contains the pushed element. -/
def mutatedDefault : JVal :=
  .obj [("products", .arr [.num 1]), ("customers", .arr []), ("sellers", .arr []),
        ("customerTransactions", .arr []), ("supplierTransactions", .arr [])]

/-- C3 is false on the code: line 79 returns the shallow copy
`{ ...this.defaultData }`, so the inner arrays of the returned value
are the very arrays of the default constant.  Concretely: the first
call on an empty backend returns a value deep-equal to the Default
Dataset, but after pushing the number 1 into that returned value's
`products` array, the stored default constant itself and the result of
a second call both read back with `products = [1]` — no longer the
Default Dataset. -/
theorem loadData_shallow_default_counterexample :
    readHVal load1.2 3 load1.1 = some defaultData ∧
    readHVal heapAfterPush 3 dmDefault = some mutatedDefault ∧
    readHVal load2.2 3 load2.1 = some mutatedDefault ∧
    mutatedDefault ≠ defaultData :=
  ⟨rfl, rfl, rfl, by simp [mutatedDefault, defaultData]⟩

/-- C3 amended: on an empty backend `loadData` returns a value
deep-equal to the Default Dataset, and the returned top-level object is
fresh per call: it is a different reference from the default constant,
and reassigning one of its fields changes neither the default constant
nor the result of a subsequent call.  Only the top level is fresh; the
inner arrays are shared with the default constant, as the
counterexample shows. -/
theorem loadData_default_fresh_toplevel :
    readHVal load1.2 3 load1.1 = some defaultData ∧
    load1.1 ≠ dmDefault ∧
    readHVal (load1.2.setField load1.1 "products" (HVal.num 9)) 3 dmDefault =
      some defaultData ∧
    readHVal
      (loadDataOnEmpty (load1.2.setField load1.1 "products" (HVal.num 9)) dmDefault).2 3
      (loadDataOnEmpty (load1.2.setField load1.1 "products" (HVal.num 9)) dmDefault).1 =
      some defaultData :=
  ⟨rfl, by decide, rfl, rfl⟩
